import Mathlib

/-!
Shallow embedding of the CoCo story-video synthesis pipeline
(`backend/story_video_generator.py` and the video endpoints of `backend/app.py`),
together with theorems settling the frozen claims about it.

Numeric conventions: Python floats are modelled exactly as rationals; `int(x)`
(truncation toward zero) is `pyTrunc`; `//` on integers (floor division) is
`pyFloorDiv`.  Response strings are modelled as `List Char` where
character-level operations (find / rfind / slice / split) are needed.
External collaborators (captioning, narrative model, `json.loads`,
text-to-speech, music generation, the RNG stream) are abstracted as pure
functions bundled in a `Collaborators` record.
-/

namespace CoCo

/-- Python `int(x)` on a float: truncation toward zero. -/
def pyTrunc (q : ℚ) : ℤ := if q < 0 then -⌊-q⌋ else ⌊q⌋

/-- Python `a // b` floor division on integers. -/
def pyFloorDiv (a b : ℤ) : ℤ := ⌊(a : ℚ) / (b : ℚ)⌋

/-- Python `str.strip()` whitespace set (ASCII). -/
def isPyWhitespace (c : Char) : Bool :=
  c = ' ' || c = '\t' || c = '\n' || c = '\r' || c = '\x0b' || c = '\x0c'

/-- Python `str.strip()`. -/
def pyStripChars (cs : List Char) : List Char :=
  ((cs.dropWhile isPyWhitespace).reverse.dropWhile isPyWhitespace).reverse

/-- First index at which `sub` occurs in the scanned list, offset by `i`. -/
def findSubAux (sub : List Char) : List Char → ℕ → Option ℕ
  | [], i => if sub.isPrefixOf ([] : List Char) then some i else none
  | c :: rest, i =>
    if sub.isPrefixOf (c :: rest) then some i else findSubAux sub rest (i + 1)

/-- Python `sub in s` substring test. -/
def containsSub (sub cs : List Char) : Bool := (findSubAux sub cs 0).isSome

/-- The text after the first occurrence of `sub` (the part of Python
`s.split(sub)[1]` that survives the next cut; see `sanitizeCore`). -/
def afterFirst (sub cs : List Char) : List Char :=
  match findSubAux sub cs 0 with
  | some i => cs.drop (i + sub.length)
  | none => cs

/-- The text before the first occurrence of `sub` (Python `s.split(sub)[0]`). -/
def beforeFirst (sub cs : List Char) : List Char :=
  match findSubAux sub cs 0 with
  | some i => cs.take i
  | none => cs

/-- Python `str.find` for a single character: index of first occurrence or `-1`. -/
def findChar (c : Char) (cs : List Char) : ℤ :=
  match cs.findIdx? (fun x => x = c) with
  | some i => (i : ℤ)
  | none => -1

/-- Python `str.rfind` for a single character: index of last occurrence or `-1`. -/
def rfindChar (c : Char) (cs : List Char) : ℤ :=
  match cs.reverse.findIdx? (fun x => x = c) with
  | some i => (cs.length : ℤ) - 1 - (i : ℤ)
  | none => -1

/-- Python slice `s[a:b]` with negative-index wrap-around and clamping. -/
def pySlice (cs : List Char) (a b : ℤ) : List Char :=
  let n : ℤ := cs.length
  let a' : ℤ := if a < 0 then max 0 (n + a) else min a n
  let b' : ℤ := if b < 0 then max 0 (n + b) else min b n
  if a' < b' then (cs.drop a'.toNat).take (b' - a').toNat else []

/-- Response clean-up of `analyze_images` (`story_video_generator.py:339-348`):
strip, code-fence extraction, then slice from the first open brace to one past
the last close brace. -/
def sanitizeCore (raw : List Char) : List Char :=
  let cs := pyStripChars raw
  let cs :=
    if containsSub ("```json".toList) cs then
      pyStripChars (beforeFirst ("```".toList) (afterFirst ("```json".toList) cs))
    else if containsSub ("```".toList) cs then
      pyStripChars (beforeFirst ("```".toList) (afterFirst ("```".toList) cs))
    else cs
  pySlice cs (findChar '\x7b' cs) (rfindChar '\x7d' cs + 1)

/-- String-level wrapper of `sanitizeCore`. -/
def sanitizeResponse (raw : String) : String := String.mk (sanitizeCore raw.toList)

/-- The parsed story JSON object (`title` / `story` / `scene_narrations` keys). -/
structure StoryData where
  title : String
  story : String
  scene_narrations : List String
  deriving DecidableEq

/-- Fallback document substituted when story generation fails
(`analyze_images`, lines 359-363). -/
def fallbackStory (n : ℕ) : StoryData :=
  ⟨"A Story of Imagination", "A tale unfolds through these magical scenes.",
    List.replicate n "A magical scene unfolds."⟩

/-- An audio clip: a duration in seconds and a sample signal. -/
structure Clip where
  duration : ℚ
  sig : ℚ → ℚ

/-- moviepy `concatenate_audioclips`. -/
def concatClips : List Clip → Clip
  | [] => ⟨0, fun _ => 0⟩
  | c :: cs =>
    ⟨c.duration + (concatClips cs).duration,
      fun t => if t < c.duration then c.sig t else (concatClips cs).sig (t - c.duration)⟩

/-- moviepy `subclipped(a, b)`. -/
def subclipped (c : Clip) (a b : ℚ) : Clip := ⟨b - a, fun t => c.sig (t + a)⟩

/-- moviepy `with_volume_scaled(v)`. -/
def withVolumeScaled (v : ℚ) (c : Clip) : Clip := ⟨c.duration, fun t => v * c.sig t⟩

/-- moviepy `CompositeAudioClip([a, b])`: additive mix, duration is the max. -/
def composite2 (a b : Clip) : Clip :=
  ⟨max a.duration b.duration, fun t => a.sig t + b.sig t⟩

/-- `merge_audio_with_music` (`story_video_generator.py:542-584`).  The
`mus.duration = 0` case models the ZeroDivisionError in `loops_needed`, caught
by the except branch which falls back to the narration audio. -/
def merge_audio_with_music (narr mus : Clip) (music_volume : ℚ) : Clip :=
  if mus.duration < narr.duration ∧ mus.duration = 0 then narr
  else
    let bg :=
      if mus.duration < narr.duration then
        concatClips (List.replicate (pyTrunc (narr.duration / mus.duration) + 1).toNat mus)
      else mus
    let bg := subclipped bg 0 narr.duration
    let bg := withVolumeScaled music_volume bg
    composite2 narr bg

/-- The effect kinds dispatched by `create_scene_clip` (lines 416-431). -/
inductive EffectKind
  | punch | dolly | spiralCW | spiralCCW | stretch | focusPull | coolPan
  deriving DecidableEq

/-- The selection list of `get_random_effect_combination` (lines 451-461);
`stretch_effect` is listed three times in the source. -/
def effectsCatalogue : List EffectKind :=
  [.punch, .dolly, .spiralCW, .spiralCCW, .stretch, .stretch, .stretch, .focusPull, .coolPan]

/-- `get_random_effect_combination` (lines 449-464): `random.choice(effects)`
draws `effects[randbelow(len(effects))]` from the global, unseeded RNG;
`randDraw` models the drawn value.  The `scene_index` parameter is unused by
the source ("Truly random selection - no seed for maximum randomness"). -/
def get_random_effect_combination (randDraw : ℕ) (scene_index : ℕ) : EffectKind :=
  effectsCatalogue.getD (randDraw % effectsCatalogue.length) .punch

/-- One rendered video frame, recorded symbolically: either a frame of a scene
clip (source image, applied effect, optional title overlay, frame index) or a
cross-fade frame blending two frames (`create_transition`). -/
inductive VFrame
  | scene (image : String) (effect : EffectKind) (overlay : Option String) (i : ℕ)
  | blend (a b : VFrame) (j : ℕ)
  deriving DecidableEq

/-- Number of frames for a block of duration `d`: `range(int(duration * fps))`
with `fps = 30` (`create_scene_clip`, line 412). -/
def frameCount (d : ℚ) : ℕ := (pyTrunc (d * 30)).toNat

/-- `create_scene_clip` (lines 393-437) with a concrete effect (the `auto`
branch resolves the effect through `get_random_effect_combination` first). -/
def create_scene_clip (image : String) (d : ℚ) (effect : EffectKind) : List VFrame :=
  (List.range (frameCount d)).map (fun i => .scene image effect none i)

/-- The `cv2.putText` overlay applied to every title frame (lines 688-695). -/
def overlayTitle (t : String) : VFrame → VFrame
  | .scene img e _ i => .scene img e (some t) i
  | f => f

/-- The per-scene loop of `generate_video` (lines 705-725): for each image,
draw an effect, render the scene frames, and insert 30 cross-fade frames
between the last frame so far and the first frame of the new scene.  Fails
like the Python code does (IndexError on `all_frames[-1]` / `scene_frames[0]`)
when either frame list is empty. -/
def addScenes (rng : ℕ → ℕ) : List (String × Clip) → ℕ → List VFrame → Except String (List VFrame)
  | [], _, acc => .ok acc
  | (img, c) :: rest, k, acc =>
    let sf := create_scene_clip img c.duration (get_random_effect_combination (rng k) (k + 2))
    match acc.getLast?, sf.head? with
    | some la, some f0 =>
        addScenes rng rest (k + 1) (acc ++ (List.range 30).map (fun j => .blend la f0 j) ++ sf)
    | _, _ => .error "list index out of range"

/-- Frame assembly of `generate_video` (lines 680-725): title block from the
first image with punch zoom and a title overlay, introduction block from the
first image with focus pull, then each scene with a leading transition.  The
guard mirrors the IndexError on `durations[i + 2]` when there are fewer scene
clips than images. -/
def buildFramesE (u : List String) (story : StoryData) (tc ic : Clip) (scs : List Clip)
    (rng : ℕ → ℕ) : Except String (List VFrame) :=
  if scs.length < u.length then .error "list index out of range"
  else
    let tf := (create_scene_clip u.headI tc.duration .punch).map (overlayTitle story.title)
    let intf := create_scene_clip u.headI ic.duration .focusPull
    addScenes rng (u.zip scs) 0 (tf ++ intf)

/-- Duplicate removal of `generate_video` (lines 600-612): keep the first
occurrence of every path, preserving order (`seen` set plus append loop). -/
def dedupFrom (seen : List String) : List String → List String
  | [] => []
  | p :: rest => if p ∈ seen then dedupFrom seen rest else p :: dedupFrom (p :: seen) rest

/-- `dedup l` is the working image list after duplicate removal. -/
def dedup (l : List String) : List String := dedupFrom [] l

/-- The external collaborators and ambient environment consumed by a job,
abstracted as pure functions: per-image captioning (`none` models a raised
call), the narrative model's raw response text for given descriptions and
context, `json.loads` composed with field extraction on the cleaned text,
text-to-speech (`create_audio`; `none` models failure), background-music
generation, the stream of RNG draws, the run timestamp, and the
enhanced-images directory listing used when no paths are supplied. -/
structure Collaborators where
  caption : String → Option String
  narrate : List String → Option String → String
  jsonParse : String → Option StoryData
  tts : String → Option Clip
  music : StoryData → ℚ → Option Clip
  rng : ℕ → ℕ
  timestamp : String
  dirImages : List String

/-- The captioning loop of `analyze_images` (lines 270-296): a fixed
placeholder replaces a failed caption; the batch never aborts. -/
def describeImages (caption : String → Option String) (paths : List String) : List String :=
  paths.map (fun p => (caption p).getD "A mysterious scene unfolds.")

/-- `analyze_images` (lines 262-363): describe every image, ask the narrative
model, sanitize the response, parse it, and fall back on parse failure. -/
def analyze_images (C : Collaborators) (paths : List String) (ctx : Option String) : StoryData :=
  let descs := describeImages C.caption paths
  match C.jsonParse (sanitizeResponse (C.narrate descs ctx)) with
  | some sd => sd
  | none => fallbackStory descs.length

/-- Shared tail of the three narration-synthesis error messages (lines
630-647). -/
def quotaSuffix : String :=
  " audio - ElevenLabs API quota may be exceeded. Please check your API key and account credits."

/-- Error raised when title narration synthesis fails (line 632). -/
def titleAudioError : String := "Failed to create title" ++ quotaSuffix

/-- Error raised when introduction narration synthesis fails (line 639). -/
def introAudioError : String := "Failed to create intro" ++ quotaSuffix

/-- Error raised when synthesis of scene `i` fails (line 647). -/
def sceneAudioError (i : ℕ) : String := "Failed to create scene " ++ toString i ++ quotaSuffix

/-- The per-scene narration synthesis loop (lines 643-648): sequential, the
first failure raises with the scene index in the message. -/
def ttsScenes (tts : String → Option Clip) : List String → ℕ → Except String (List Clip)
  | [], _ => .ok []
  | t :: rest, i =>
    match tts t with
    | none => .error (sceneAudioError i)
    | some c =>
      match ttsScenes tts rest (i + 1) with
      | .error e => .error e
      | .ok cs => .ok (c :: cs)

/-- The observable result of a successful `generate_video` run. -/
structure Output where
  storyDoc : StoryData
  frames : List VFrame
  audioTrack : Clip
  path : String

/-- `generate_video` after deduplication (lines 618-786): story, per-unit
narration synthesis (any failure fatal), optional background music (failure
never fatal), frame assembly, audio mix, timestamped output path. -/
def pipelineOnUnique (C : Collaborators) (u : List String) (ctx : Option String)
    (include_music : Bool) : Except String Output :=
  let story := analyze_images C u ctx
  match C.tts story.title with
  | none => .error titleAudioError
  | some tc =>
    match C.tts story.story with
    | none => .error introAudioError
    | some ic =>
      match ttsScenes C.tts story.scene_narrations 0 with
      | .error e => .error e
      | .ok scs =>
        let total := (tc.duration :: ic.duration :: scs.map Clip.duration).sum
        let musicTrack := if include_music then C.music story total else none
        match buildFramesE u story tc ic scs C.rng with
        | .error e => .error e
        | .ok fs =>
          let narr := concatClips (tc :: ic :: scs)
          let finalTrack :=
            match musicTrack with
            | some mt => merge_audio_with_music narr mt (2/10)
            | none => narr
          .ok ⟨story, fs, finalTrack, "story_" ++ C.timestamp ++ ".mp4"⟩

/-- `generate_video` (lines 586-792) before the outer try/except: image
selection (`get_recent_images`), empty check, dedup, then the pipeline. -/
def generate_videoE (C : Collaborators) (image_paths : List String) (ctx : Option String)
    (include_music : Bool) : Except String Output :=
  let ips := if image_paths.isEmpty then C.dirImages else image_paths
  if ips.isEmpty then .error "No images found!"
  else pipelineOnUnique C (dedup ips) ctx include_music

/-- `generate_video` as observed by callers: the outer except swallows the
error and returns `None` (line 792). -/
def generate_video (C : Collaborators) (image_paths : List String) (ctx : Option String)
    (include_music : Bool) : Option Output :=
  (generate_videoE C image_paths ctx include_music).toOption

/-- Files written to the output directory by a run: the timestamped video on
success, nothing otherwise (`write_videofile` is only reached on the success
path, line 768). -/
def writtenFiles (r : Option Output) : List String :=
  match r with
  | some out => [out.path]
  | none => []

/-- A polled job status (`video_processing_status` entries in `app.py`). -/
inductive JobStatus
  | processing
  | complete (path : String)
  | error (msg : String)
  deriving DecidableEq

/-- `generate_video_background` (`app.py:341-381`): re-check the raw image
count, run the generator, record `complete` or `error` for the poller. -/
def generate_video_background (C : Collaborators) (storyboard : List String) : JobStatus :=
  if storyboard.length < 2 then .error "Need at least 2 images to generate a video"
  else
    match generate_video C storyboard none false with
    | some out => .complete out.path
    | none => .error "Failed to generate video"

/-- Responses of the `/api/generate-video` endpoint. -/
inductive ApiResult
  | badRequest (msg : String)
  | busy
  | accepted (requestId : String)
  deriving DecidableEq

/-- `generate_video_api` (`app.py:588-618`): the up-front validation checks
the raw storyboard length, then the busy flag, then starts the background
job. -/
def generate_video_api (storyboard : List String) (is_video_processing : Bool)
    (requestId : String) : ApiResult :=
  if storyboard.length < 2 then
    .badRequest "Need at least 2 images in storyboard to generate a video"
  else if is_video_processing then .busy
  else .accepted requestId

/-- The narration units in synthesis order: title, introduction, scene lines. -/
def narrationUnits (sd : StoryData) : List String :=
  sd.title :: sd.story :: sd.scene_narrations

/-- Number of distinct paths in a list. -/
def uniqueCount (l : List String) : ℕ := (dedup l).length

/-! ### Basic numeric lemmas -/

theorem pyTrunc_of_nonneg {q : ℚ} (h : 0 ≤ q) : pyTrunc q = ⌊q⌋ := by
  rw [pyTrunc, if_neg (not_lt.mpr h)]

theorem frameCount_eq_floor {d : ℚ} (h : 0 ≤ d) : frameCount d = (⌊d * 30⌋).toNat := by
  rw [frameCount, pyTrunc_of_nonneg (by positivity)]

theorem length_create_scene_clip (img : String) (d : ℚ) (e : EffectKind) :
    (create_scene_clip img d e).length = frameCount d := by
  simp [create_scene_clip]

/-! ### Deduplication lemmas -/

theorem dedupFrom_sublist : ∀ (l seen : List String), (dedupFrom seen l).Sublist l
  | [], _ => by simp [dedupFrom]
  | p :: rest, seen => by
    by_cases hp : p ∈ seen
    · rw [dedupFrom, if_pos hp]
      exact (dedupFrom_sublist rest seen).trans (List.sublist_cons_self p rest)
    · rw [dedupFrom, if_neg hp]
      exact (dedupFrom_sublist rest (p :: seen)).cons₂ p

theorem not_mem_seen_of_mem_dedupFrom {x : String} :
    ∀ (l seen : List String), x ∈ dedupFrom seen l → x ∉ seen
  | [], _, h => by simp [dedupFrom] at h
  | p :: rest, seen, h => by
    by_cases hp : p ∈ seen
    · rw [dedupFrom, if_pos hp] at h
      exact not_mem_seen_of_mem_dedupFrom rest seen h
    · rw [dedupFrom, if_neg hp] at h
      rcases List.mem_cons.mp h with rfl | h2
      · exact hp
      · intro hx
        exact not_mem_seen_of_mem_dedupFrom rest (p :: seen) h2 (List.mem_cons_of_mem p hx)

theorem dedupFrom_nodup : ∀ (l seen : List String), (dedupFrom seen l).Nodup
  | [], _ => by simp [dedupFrom]
  | p :: rest, seen => by
    by_cases hp : p ∈ seen
    · rw [dedupFrom, if_pos hp]
      exact dedupFrom_nodup rest seen
    · rw [dedupFrom, if_neg hp]
      refine List.nodup_cons.mpr ⟨?_, dedupFrom_nodup rest (p :: seen)⟩
      intro hmem
      exact not_mem_seen_of_mem_dedupFrom rest (p :: seen) hmem (List.mem_cons_self p seen)

theorem mem_dedupFrom_iff {x : String} :
    ∀ (l seen : List String), x ∈ dedupFrom seen l ↔ x ∈ l ∧ x ∉ seen
  | [], seen => by simp [dedupFrom]
  | p :: rest, seen => by
    by_cases hp : p ∈ seen
    · rw [dedupFrom, if_pos hp, mem_dedupFrom_iff rest seen, List.mem_cons]
      constructor
      · rintro ⟨h1, h2⟩
        exact ⟨Or.inr h1, h2⟩
      · rintro ⟨h1 | h1, h2⟩
        · exact absurd (h1 ▸ hp) h2
        · exact ⟨h1, h2⟩
    · rw [dedupFrom, if_neg hp]
      simp only [List.mem_cons, mem_dedupFrom_iff rest (p :: seen)]
      constructor
      · rintro (rfl | ⟨h1, h2⟩)
        · exact ⟨Or.inl rfl, hp⟩
        · exact ⟨Or.inr h1, fun hx => h2 (Or.inr hx)⟩
      · rintro ⟨rfl | h1, h2⟩
        · exact Or.inl rfl
        · by_cases hxp : x = p
          · exact Or.inl hxp
          · refine Or.inr ⟨h1, fun hx => ?_⟩
            rcases hx with h | h
            · exact hxp h
            · exact h2 h

theorem dedup_nodup (l : List String) : (dedup l).Nodup := dedupFrom_nodup l []

theorem dedup_sublist (l : List String) : (dedup l).Sublist l := dedupFrom_sublist l []

theorem mem_dedup_iff (x : String) (l : List String) : x ∈ dedup l ↔ x ∈ l := by
  rw [dedup, mem_dedupFrom_iff]
  simp

theorem dedup_abad (A B D : String) : dedup [A, B, A, D] = dedup [A, B, D] := by
  by_cases h : B = A <;> simp [dedup, dedupFrom, h]

/-! ### Narration synthesis lemmas -/

theorem ttsScenes_error_of_mem {tts : String → Option Clip} {t : String} :
    ∀ (l : List String) (k : ℕ), t ∈ l → tts t = none →
      ∃ i, ttsScenes tts l k = .error (sceneAudioError i)
  | [], _, h, _ => absurd h (List.not_mem_nil t)
  | s :: rest, k, h, hn => by
    cases hs : tts s with
    | none => exact ⟨k, by rw [ttsScenes, hs]⟩
    | some c =>
      rcases List.mem_cons.mp h with rfl | h2
      · rw [hn] at hs
        cases hs
      · obtain ⟨i, hi⟩ := ttsScenes_error_of_mem rest (k + 1) h2 hn
        exact ⟨i, by rw [ttsScenes, hs, hi]⟩

/-! ### Frame counting -/

/-- Whether a frame belongs to a scene/title/introduction block (as opposed to
a cross-fade transition frame). -/
def isSceneFrame : VFrame → Bool
  | .scene _ _ _ _ => true
  | .blend _ _ _ => false

/-- Number of title/introduction/scene frames in a frame list. -/
def sceneFrameCount (fs : List VFrame) : ℕ := fs.countP isSceneFrame

/-- Number of transition frames in a frame list. -/
def transFrameCount (fs : List VFrame) : ℕ := fs.countP (fun f => !isSceneFrame f)

theorem sceneFrameCount_append (l1 l2 : List VFrame) :
    sceneFrameCount (l1 ++ l2) = sceneFrameCount l1 + sceneFrameCount l2 :=
  List.countP_append _ _ _

theorem transFrameCount_append (l1 l2 : List VFrame) :
    transFrameCount (l1 ++ l2) = transFrameCount l1 + transFrameCount l2 :=
  List.countP_append _ _ _

theorem sceneFrameCount_create (img : String) (d : ℚ) (e : EffectKind) :
    sceneFrameCount (create_scene_clip img d e) = frameCount d := by
  simp [sceneFrameCount, create_scene_clip, List.countP_map, Function.comp_def, isSceneFrame]

theorem transFrameCount_create (img : String) (d : ℚ) (e : EffectKind) :
    transFrameCount (create_scene_clip img d e) = 0 := by
  simp [transFrameCount, create_scene_clip, List.countP_map, Function.comp_def, isSceneFrame]

theorem sceneFrameCount_blendRun (la f0 : VFrame) :
    sceneFrameCount ((List.range 30).map (fun j => VFrame.blend la f0 j)) = 0 := by
  simp [sceneFrameCount, List.countP_map, Function.comp_def, isSceneFrame]

theorem transFrameCount_blendRun (la f0 : VFrame) :
    transFrameCount ((List.range 30).map (fun j => VFrame.blend la f0 j)) = 30 := by
  simp [transFrameCount, List.countP_map, Function.comp_def, isSceneFrame]

theorem sceneFrameCount_overlay (t : String) (l : List VFrame) :
    sceneFrameCount (l.map (overlayTitle t)) = sceneFrameCount l := by
  rw [sceneFrameCount, sceneFrameCount, List.countP_map]
  apply List.countP_congr
  intro f _
  cases f <;> rfl

theorem transFrameCount_overlay (t : String) (l : List VFrame) :
    transFrameCount (l.map (overlayTitle t)) = transFrameCount l := by
  rw [transFrameCount, transFrameCount, List.countP_map]
  apply List.countP_congr
  intro f _
  cases f <;> rfl

/-! ### Scene-loop lemmas -/

theorem addScenes_counts (rng : ℕ → ℕ) :
    ∀ (ps : List (String × Clip)) (k : ℕ) (acc fs : List VFrame),
      addScenes rng ps k acc = .ok fs →
      sceneFrameCount fs
        = sceneFrameCount acc + (ps.map (fun p => frameCount p.2.duration)).sum ∧
      transFrameCount fs = transFrameCount acc + 30 * ps.length
  | [], k, acc, fs, h => by
    rw [addScenes] at h
    cases h
    simp
  | (img, c) :: rest, k, acc, fs, h => by
    simp only [addScenes] at h
    cases hl : acc.getLast? with
    | none => rw [hl] at h; simp at h
    | some la =>
      rw [hl] at h
      cases hh : (create_scene_clip img c.duration
          (get_random_effect_combination (rng k) (k + 2))).head? with
      | none => rw [hh] at h; simp at h
      | some f0 =>
        rw [hh] at h
        obtain ⟨h1, h2⟩ := addScenes_counts rng rest (k + 1) _ fs h
        constructor
        · rw [h1, sceneFrameCount_append, sceneFrameCount_append, sceneFrameCount_blendRun,
            sceneFrameCount_create]
          simp only [List.map_cons, List.sum_cons]
          omega
        · rw [h2, transFrameCount_append, transFrameCount_append, transFrameCount_blendRun,
            transFrameCount_create]
          simp only [List.length_cons]
          omega

theorem addScenes_extends (rng : ℕ → ℕ) :
    ∀ (ps : List (String × Clip)) (k : ℕ) (acc fs : List VFrame),
      addScenes rng ps k acc = .ok fs → ∃ t, fs = acc ++ t
  | [], k, acc, fs, h => by
    rw [addScenes] at h
    cases h
    exact ⟨[], (List.append_nil acc).symm⟩
  | (img, c) :: rest, k, acc, fs, h => by
    simp only [addScenes] at h
    cases hl : acc.getLast? with
    | none => rw [hl] at h; simp at h
    | some la =>
      rw [hl] at h
      cases hh : (create_scene_clip img c.duration
          (get_random_effect_combination (rng k) (k + 2))).head? with
      | none => rw [hh] at h; simp at h
      | some f0 =>
        rw [hh] at h
        obtain ⟨t, ht⟩ := addScenes_extends rng rest (k + 1) _ fs h
        refine ⟨(List.range 30).map (fun j => VFrame.blend la f0 j)
          ++ (create_scene_clip img c.duration
              (get_random_effect_combination (rng k) (k + 2)) ++ t), ?_⟩
        rw [ht, List.append_assoc, List.append_assoc]

/-! ### Story analysis lemmas -/

theorem analyze_images_parse_failed {C : Collaborators} {paths : List String}
    {ctx : Option String}
    (h : C.jsonParse (sanitizeResponse (C.narrate (describeImages C.caption paths) ctx))
      = none) :
    analyze_images C paths ctx = fallbackStory paths.length := by
  simp only [analyze_images]
  rw [h]
  simp [describeImages]

theorem analyze_images_parsed {C : Collaborators} {paths : List String}
    {ctx : Option String} {sd : StoryData}
    (h : C.jsonParse (sanitizeResponse (C.narrate (describeImages C.caption paths) ctx))
      = some sd) :
    analyze_images C paths ctx = sd := by
  simp only [analyze_images]
  rw [h]

/-! ### Pipeline wrapper lemmas -/

theorem generate_videoE_of_ne_nil {paths : List String} (h : paths ≠ [])
    (C : Collaborators) (ctx : Option String) (m : Bool) :
    generate_videoE C paths ctx m = pipelineOnUnique C (dedup paths) ctx m := by
  cases paths with
  | nil => exact absurd rfl h
  | cons p rest => rfl

theorem buildFramesE_ok_counts {u : List String} {story : StoryData} {tc ic : Clip}
    {scs : List Clip} {rng : ℕ → ℕ} {fs : List VFrame}
    (h : buildFramesE u story tc ic scs rng = .ok fs) :
    u.length ≤ scs.length ∧
    sceneFrameCount fs = frameCount tc.duration + frameCount ic.duration
      + ((u.zip scs).map (fun p => frameCount p.2.duration)).sum ∧
    transFrameCount fs = 30 * u.length := by
  rw [buildFramesE] at h
  split at h
  · simp at h
  · rename_i hguard
    have hlen : u.length ≤ scs.length := Nat.le_of_not_lt hguard
    obtain ⟨h1, h2⟩ := addScenes_counts _ (u.zip scs) 0 _ fs h
    refine ⟨hlen, ?_, ?_⟩
    · rw [h1, sceneFrameCount_append, sceneFrameCount_overlay, sceneFrameCount_create,
        sceneFrameCount_create]
    · rw [h2, transFrameCount_append, transFrameCount_overlay, transFrameCount_create,
        transFrameCount_create, List.length_zip, Nat.min_eq_left hlen]
      omega

/-! ### Concrete values used by witnesses -/

/-- Unit audio clip used by concrete witnesses. -/
def clipOne : Clip := ⟨1, fun _ => 1⟩

/-- Concrete story document used by concrete witnesses. -/
def demoStory : StoryData := fallbackStory 2

/-- Concrete image list used by concrete witnesses. -/
def demoU : List String := ["a", "b"]

/-- Concrete scene clips used by concrete witnesses. -/
def demoScs : List Clip := [clipOne, clipOne]

/-- Concrete frame assembly used by concrete witnesses. -/
def demoFrames : List VFrame :=
  (buildFramesE demoU demoStory clipOne clipOne demoScs (fun _ => 0)).toOption.getD []

/-! ### Claim C2 -/

/-- C2 (amended): the number of frames rendered for a scene/title/introduction
block of duration `d` is `int(fps * d)` — truncation toward zero, not
`round` — and for a frame assembly with one scene clip per image the total
scene+title+intro frame count is the sum of the per-clip truncated counts,
while each one-second transition contributes exactly 30 frames per scene. -/
theorem c2_frame_count_truncation :
    (∀ (img : String) (d : ℚ) (e : EffectKind), 0 ≤ d →
      (create_scene_clip img d e).length = (⌊d * 30⌋).toNat) ∧
    (∀ (u : List String) (story : StoryData) (tc ic : Clip) (scs : List Clip)
        (rng : ℕ → ℕ) (fs : List VFrame),
      buildFramesE u story tc ic scs rng = .ok fs → scs.length = u.length →
      sceneFrameCount fs = frameCount tc.duration + frameCount ic.duration
        + (scs.map (fun c => frameCount c.duration)).sum ∧
      transFrameCount fs = 30 * u.length) := by
  constructor
  · intro img d e hd
    rw [length_create_scene_clip, frameCount_eq_floor hd]
  · intro u story tc ic scs rng fs h hlen
    obtain ⟨hle, h1, h2⟩ := buildFramesE_ok_counts h
    refine ⟨?_, h2⟩
    rw [h1]
    congr 1
    have hsnd : (u.zip scs).map Prod.snd = scs :=
      List.map_snd_zip u scs (le_of_eq hlen)
    conv_rhs => rw [← hsnd, List.map_map]
    rfl

/-- C2 counterexample: a block of duration 2.05 s at 30 fps renders
`int(61.5) = 61` frames, not `round(61.5) = 62` as the claim states. -/
theorem c2_round_counterexample :
    (create_scene_clip "img" (41/20) EffectKind.punch).length
      ≠ (round ((41/20 : ℚ) * 30)).toNat := by
  with_unfolding_all decide

/-- C2 witness: the amended theorem applied at duration 2 and at a concrete
two-image assembly with unit clips. -/
theorem c2_witness :
    ((create_scene_clip "a" 2 EffectKind.punch).length = (⌊(2 : ℚ) * 30⌋).toNat) ∧
    (sceneFrameCount demoFrames = frameCount clipOne.duration + frameCount clipOne.duration
        + (demoScs.map (fun c => frameCount c.duration)).sum ∧
      transFrameCount demoFrames = 30 * demoU.length) := by
  refine ⟨c2_frame_count_truncation.1 "a" 2 EffectKind.punch (by norm_num),
    c2_frame_count_truncation.2 demoU demoStory clipOne clipOne demoScs (fun _ => 0)
      demoFrames ?_ rfl⟩
  with_unfolding_all rfl

/-! ### Claim C3 -/

/-- C3: the assembler deduplicates the image list before any other processing:
the working list has no duplicate paths, keeps the first occurrence of every
path in input order (it is a sublist of the input with the same members), and
a job started on `[A, B, A, D]` behaves identically — in particular produces
the same timeline — as one started on `[A, B, D]`. -/
theorem c3_dedup_before_processing :
    (∀ l : List String,
      (dedup l).Nodup ∧ (dedup l).Sublist l ∧ ∀ x, x ∈ dedup l ↔ x ∈ l) ∧
    (∀ (C : Collaborators) (ctx : Option String) (m : Bool) (A B D : String),
      generate_videoE C [A, B, A, D] ctx m = generate_videoE C [A, B, D] ctx m) := by
  constructor
  · intro l
    exact ⟨dedup_nodup l, dedup_sublist l, fun x => mem_dedup_iff x l⟩
  · intro C ctx m A B D
    rw [generate_videoE_of_ne_nil (by simp) C ctx m,
      generate_videoE_of_ne_nil (by simp) C ctx m, dedup_abad]

/-! ### Claim C9 -/

/-- C9 (amended): effect selection ignores the scene index entirely — the
result is a function of the global RNG draw alone — and always lands in the
fixed nine-entry selection list (with `stretch` listed three times); it is not
reproducible per index, because the unseeded global RNG advances between
calls. -/
theorem c9_effect_selection_random :
    (∀ (r i j : ℕ),
      get_random_effect_combination r i = get_random_effect_combination r j) ∧
    (∀ (r i : ℕ), get_random_effect_combination r i ∈ effectsCatalogue) := by
  constructor
  · intro r i j
    rfl
  · intro r i
    have h9 : r % effectsCatalogue.length < 9 := Nat.mod_lt _ (by decide)
    have hall : ∀ k, k < 9 → effectsCatalogue.getD k EffectKind.punch ∈ effectsCatalogue := by
      decide
    exact hall _ h9

/-- C9 counterexample: two evaluations at the same scene index 5 but with
different global-RNG states yield different effects, so effect assignment is
not a deterministic function of the scene index. -/
theorem c9_counterexample :
    get_random_effect_combination 0 5 ≠ get_random_effect_combination 4 5 := by
  decide

/-! ### Claim C1 -/

theorem pipeline_error_of_tts_failure (C : Collaborators) (u : List String)
    (ctx : Option String) (m : Bool)
    (hfail : ∃ t ∈ narrationUnits (analyze_images C u ctx), C.tts t = none) :
    ∃ pre, pipelineOnUnique C u ctx m = .error (pre ++ quotaSuffix) := by
  obtain ⟨t, ht, hnone⟩ := hfail
  cases h1 : C.tts (analyze_images C u ctx).title with
  | none =>
    refine ⟨"Failed to create title", ?_⟩
    simp only [pipelineOnUnique]
    rw [h1]
    rfl
  | some tc =>
    cases h2 : C.tts (analyze_images C u ctx).story with
    | none =>
      refine ⟨"Failed to create intro", ?_⟩
      simp only [pipelineOnUnique]
      rw [h1, h2]
      rfl
    | some ic =>
      rw [narrationUnits] at ht
      rcases List.mem_cons.mp ht with rfl | ht2
      · rw [hnone] at h1
        cases h1
      · rcases List.mem_cons.mp ht2 with rfl | htm
        · rw [hnone] at h2
          cases h2
        · obtain ⟨i, hi⟩ := ttsScenes_error_of_mem _ 0 htm hnone
          refine ⟨"Failed to create scene " ++ toString i, ?_⟩
          simp only [pipelineOnUnique]
          rw [h1, h2, hi]
          simp [sceneAudioError, String.append_assoc]

/-- C1: if text-to-speech fails for any narration unit (title, introduction,
or a scene line), the whole job aborts: `generate_video` produces a
"Failed to create … audio - ElevenLabs API quota may be exceeded…" error, the
captured result is `None` so the polled job status becomes `error`, and no
output file is written to the output directory. -/
theorem c1_tts_failure_fatal (C : Collaborators) (paths : List String)
    (ctx : Option String) (m : Bool) (hne : paths ≠ [])
    (hfail : ∃ t ∈ narrationUnits (analyze_images C (dedup paths) ctx), C.tts t = none) :
    (∃ pre, generate_videoE C paths ctx m = .error (pre ++ quotaSuffix)) ∧
    writtenFiles (generate_video C paths ctx m) = [] ∧
    (ctx = none → 2 ≤ paths.length →
      generate_video_background C paths = .error "Failed to generate video") := by
  obtain ⟨pre, hp⟩ := pipeline_error_of_tts_failure C (dedup paths) ctx m hfail
  have hg : generate_videoE C paths ctx m = .error (pre ++ quotaSuffix) := by
    rw [generate_videoE_of_ne_nil hne, hp]
  refine ⟨⟨pre, hg⟩, ?_, ?_⟩
  · simp [writtenFiles, generate_video, hg, Except.toOption]
  · intro hctx h2len
    subst hctx
    obtain ⟨pre2, hp2⟩ := pipeline_error_of_tts_failure C (dedup paths) none false hfail
    have hg2 : generate_videoE C paths none false = .error (pre2 ++ quotaSuffix) := by
      rw [generate_videoE_of_ne_nil hne, hp2]
    have hnl : ¬ paths.length < 2 := by omega
    simp [generate_video_background, generate_video, hg2, hnl, Except.toOption]

/-- Collaborators whose text-to-speech always fails (other calls give fixed
harmless values). -/
def ttsFailCollab : Collaborators :=
  ⟨fun _ => none, fun _ _ => "x", fun _ => none, fun _ => none, fun _ _ => none,
    fun _ => 0, "ts", []⟩

/-- C1 witness: the theorem applied to a concrete two-image job whose TTS
collaborator fails on every unit. -/
theorem c1_witness :
    writtenFiles (generate_video ttsFailCollab ["a", "b"] none false) = [] ∧
    generate_video_background ttsFailCollab ["a", "b"]
      = .error "Failed to generate video" := by
  have h := c1_tts_failure_fatal ttsFailCollab ["a", "b"] none false (by simp)
    ⟨(analyze_images ttsFailCollab (dedup ["a", "b"]) none).title,
      List.mem_cons_self _ _, rfl⟩
  exact ⟨h.2.1, h.2.2 rfl (by norm_num)⟩

/-! ### Claim C4 -/

/-- C4 (amended): the narrative response is sanitized before parsing
(code-fence stripping, then slicing from the first open brace to the last
close brace); a parse failure substitutes the fallback StoryDocument whose
`scene_narrations` length equals the image count — so a response of
"not json at all" still yields a completed job — but a response that parses
successfully is used as-is even when its `scene_narrations` length differs
from the image count: no length validation is performed. -/
theorem c4_sanitize_and_fallback :
    (∀ (C : Collaborators) (u : List String) (ctx : Option String),
      C.jsonParse (sanitizeResponse (C.narrate (describeImages C.caption u) ctx)) = none →
      analyze_images C u ctx = fallbackStory u.length ∧
      (analyze_images C u ctx).scene_narrations.length = u.length) ∧
    (∀ (C : Collaborators) (u : List String) (ctx : Option String) (sd : StoryData),
      C.jsonParse (sanitizeResponse (C.narrate (describeImages C.caption u) ctx)) = some sd →
      analyze_images C u ctx = sd) ∧
    sanitizeResponse "not json at all" = "" ∧
    (∀ (C : Collaborators) (paths : List String) (ctx : Option String) (m : Bool)
        (tc ic : Clip) (scs : List Clip) (fs : List VFrame),
      paths ≠ [] →
      C.narrate (describeImages C.caption (dedup paths)) ctx = "not json at all" →
      C.jsonParse "" = none →
      C.tts (fallbackStory (dedup paths).length).title = some tc →
      C.tts (fallbackStory (dedup paths).length).story = some ic →
      ttsScenes C.tts (fallbackStory (dedup paths).length).scene_narrations 0 = .ok scs →
      buildFramesE (dedup paths) (fallbackStory (dedup paths).length) tc ic scs C.rng
        = .ok fs →
      (generate_videoE C paths ctx m).toOption.map
          (fun o => o.storyDoc.scene_narrations.length)
        = some (dedup paths).length) := by
  refine ⟨?_, ?_, by decide, ?_⟩
  · intro C u ctx h
    have he := analyze_images_parse_failed h
    refine ⟨he, ?_⟩
    rw [he, fallbackStory]
    simp
  · intro C u ctx sd h
    exact analyze_images_parsed h
  · intro C paths ctx m tc ic scs fs hne hnar hparse h1 h2 h3 h4
    have hstory : analyze_images C (dedup paths) ctx
        = fallbackStory (dedup paths).length := by
      apply analyze_images_parse_failed
      rw [hnar, show sanitizeResponse "not json at all" = "" from by decide]
      exact hparse
    rw [generate_videoE_of_ne_nil hne]
    simp only [pipelineOnUnique, hstory, h1, h2, h3, h4]
    simp [fallbackStory, Except.toOption]

/-- Collaborators returning an unparsable narrative response, succeeding TTS,
and failing music generation. -/
def plainCollab : Collaborators :=
  ⟨fun _ => none, fun _ _ => "not json at all", fun _ => none, fun _ => some clipOne,
    fun _ _ => none, fun _ => 0, "ts", []⟩

/-- C4 witness: a concrete two-image job whose narrative collaborator answers
"not json at all" still completes, with a story document of two scene
narrations. -/
theorem c4_witness :
    (generate_videoE plainCollab ["a", "b"] none false).toOption.map
        (fun o => o.storyDoc.scene_narrations.length)
      = some (dedup ["a", "b"]).length := by
  refine c4_sanitize_and_fallback.2.2.2 plainCollab ["a", "b"] none false clipOne clipOne
    [clipOne, clipOne] demoFrames (by simp) rfl rfl rfl rfl ?_ ?_
  · with_unfolding_all rfl
  · with_unfolding_all rfl

/-- The narrative response of the C4 counterexample: a well-formed JSON object
whose `scene_narrations` array has length 1. -/
def c4json : String :=
  "\x7b\"title\": \"T\", \"story\": \"S\", \"scene_narrations\": [\"one\"]\x7d"

/-- Collaborators whose narrative model returns `c4json` and whose
`json.loads` behaves accordingly on it. -/
def c4Collab : Collaborators :=
  ⟨fun _ => none, fun _ _ => c4json,
    fun s => if s = c4json then some ⟨"T", "S", ["one"]⟩ else none,
    fun _ => some clipOne, fun _ _ => none, fun _ => 0, "ts", []⟩

/-- C4 counterexample: a response that parses successfully but whose
`scene_narrations` length (1) differs from the image count (2) is used as-is;
no fallback document is substituted, contrary to the claim. -/
theorem c4_counterexample :
    (analyze_images c4Collab ["a", "b"] none).scene_narrations.length = 1 ∧
    analyze_images c4Collab ["a", "b"] none ≠ fallbackStory 2 := by
  constructor
  · with_unfolding_all decide
  · with_unfolding_all decide

/-! ### Claim C5 -/

/-- C5: if background-music generation fails, a job started with
`include_music=true` still completes successfully and its output audio is
exactly the narration-only concatenation of the clips in unit order; music
failure is never fatal. -/
theorem c5_music_failure_degrades (C : Collaborators) (paths : List String)
    (ctx : Option String) (tc ic : Clip) (scs : List Clip) (fs : List VFrame)
    (hne : paths ≠ [])
    (h1 : C.tts (analyze_images C (dedup paths) ctx).title = some tc)
    (h2 : C.tts (analyze_images C (dedup paths) ctx).story = some ic)
    (h3 : ttsScenes C.tts (analyze_images C (dedup paths) ctx).scene_narrations 0 = .ok scs)
    (h4 : buildFramesE (dedup paths) (analyze_images C (dedup paths) ctx) tc ic scs C.rng
      = .ok fs)
    (hm : C.music (analyze_images C (dedup paths) ctx)
      (tc.duration :: ic.duration :: scs.map Clip.duration).sum = none) :
    (generate_videoE C paths ctx true).toOption.isSome = true ∧
    (generate_videoE C paths ctx true).toOption.map Output.audioTrack
      = some (concatClips (tc :: ic :: scs)) := by
  rw [generate_videoE_of_ne_nil hne]
  simp only [pipelineOnUnique, h1, h2, h3, h4, if_true, hm]
  simp [Except.toOption]

/-- C5 witness: the theorem applied to a concrete two-image job with failing
music generation. -/
theorem c5_witness :
    (generate_videoE plainCollab ["a", "b"] none true).toOption.isSome = true ∧
    (generate_videoE plainCollab ["a", "b"] none true).toOption.map Output.audioTrack
      = some (concatClips (clipOne :: clipOne :: [clipOne, clipOne])) := by
  refine c5_music_failure_degrades plainCollab ["a", "b"] none clipOne clipOne
    [clipOne, clipOne] demoFrames (by simp) rfl rfl ?_ ?_ rfl
  · with_unfolding_all rfl
  · with_unfolding_all rfl

/-! ### Claim C7 -/

/-- C7 (amended): a request whose raw storyboard list has fewer than two
entries (duplicates counted) is rejected up front by both the endpoint and the
background worker, independently of every collaborator — in particular a
single-image request is rejected immediately.  The up-front check counts raw
entries, not unique paths: deduplication happens only inside the pipeline. -/
theorem c7_min_image_validation (sb : List String) (b : Bool) (rid : String)
    (hlen : sb.length < 2) :
    generate_video_api sb b rid
      = .badRequest "Need at least 2 images in storyboard to generate a video" ∧
    ∀ C : Collaborators,
      generate_video_background C sb
        = .error "Need at least 2 images to generate a video" := by
  constructor
  · rw [generate_video_api, if_pos hlen]
  · intro C
    rw [generate_video_background, if_pos hlen]

/-- C7 witness: a one-image request is rejected by both layers regardless of
collaborators. -/
theorem c7_witness :
    generate_video_api ["a"] false "r"
      = .badRequest "Need at least 2 images in storyboard to generate a video" ∧
    generate_video_background ttsFailCollab ["a"]
      = .error "Need at least 2 images to generate a video" := by
  have h := c7_min_image_validation ["a"] false "r" (by norm_num)
  exact ⟨h.1, h.2 ttsFailCollab⟩

/-- C7 counterexample: a storyboard of two copies of one image has only one
unique path, yet it passes both up-front checks and the job proceeds into the
collaborator pipeline — the outcome is decided by the TTS collaborator, which
is therefore called before any rejection. -/
theorem c7_counterexample :
    uniqueCount ["a", "a"] = 1 ∧
    generate_video_api ["a", "a"] false "r" = .accepted "r" ∧
    generate_videoE ttsFailCollab ["a", "a"] none false = .error titleAudioError ∧
    generate_video_background ttsFailCollab ["a", "a"]
      = .error "Failed to generate video" := by
  refine ⟨by decide, by decide, ?_, ?_⟩
  · with_unfolding_all rfl
  · with_unfolding_all rfl

/-! ### Claim C6 -/

theorem concatClips_replicate_duration (k : ℕ) (c : Clip) :
    (concatClips (List.replicate k c)).duration = k * c.duration := by
  induction k with
  | zero => simp [concatClips]
  | succ n ih =>
    rw [List.replicate_succ, concatClips]
    simp only [ih]
    push_cast
    ring

/-- C6: when the generated music track is shorter than the narration, merging
loops `int(narration/music) + 1` whole copies of it — enough that the looped
duration meets or exceeds the narration duration — trims the loop to exactly
the narration duration, scales the music volume (`0.2`) before the additive
`CompositeAudioClip` mix with the narration, and the combined audio has
exactly the narration's duration. -/
theorem c6_music_loop_trim_mix (narr mus : Clip) (hpos : 0 < mus.duration)
    (hlt : mus.duration < narr.duration) :
    narr.duration ≤ (concatClips (List.replicate
        (pyTrunc (narr.duration / mus.duration) + 1).toNat mus)).duration ∧
    merge_audio_with_music narr mus (2/10)
      = composite2 narr (withVolumeScaled (2/10)
          (subclipped (concatClips (List.replicate
            (pyTrunc (narr.duration / mus.duration) + 1).toNat mus)) 0 narr.duration)) ∧
    (merge_audio_with_music narr mus (2/10)).duration = narr.duration := by
  have hq : (0:ℚ) ≤ narr.duration / mus.duration :=
    le_of_lt (div_pos (lt_trans hpos hlt) hpos)
  have htr : pyTrunc (narr.duration / mus.duration) = ⌊narr.duration / mus.duration⌋ :=
    pyTrunc_of_nonneg hq
  have hfl : (0:ℤ) ≤ ⌊narr.duration / mus.duration⌋ := Int.floor_nonneg.mpr hq
  have hcast : (((pyTrunc (narr.duration / mus.duration) + 1).toNat : ℤ) : ℚ)
      = (⌊narr.duration / mus.duration⌋ : ℚ) + 1 := by
    rw [htr, Int.toNat_of_nonneg (by omega)]
    push_cast
    ring
  have hloop : narr.duration
      ≤ ((pyTrunc (narr.duration / mus.duration) + 1).toNat : ℚ) * mus.duration := by
    have h1 : narr.duration / mus.duration < ⌊narr.duration / mus.duration⌋ + 1 :=
      Int.lt_floor_add_one _
    rw [div_lt_iff hpos] at h1
    have h2 : ((pyTrunc (narr.duration / mus.duration) + 1).toNat : ℚ)
        = (⌊narr.duration / mus.duration⌋ : ℚ) + 1 := by
      exact_mod_cast hcast
    rw [h2]
    linarith
  have hguard : ¬(mus.duration < narr.duration ∧ mus.duration = 0) := by
    rintro ⟨_, h0⟩
    exact absurd h0 (ne_of_gt hpos)
  have hmerge : merge_audio_with_music narr mus (2/10)
      = composite2 narr (withVolumeScaled (2/10)
          (subclipped (concatClips (List.replicate
            (pyTrunc (narr.duration / mus.duration) + 1).toNat mus)) 0 narr.duration)) := by
    rw [merge_audio_with_music, if_neg hguard, if_pos hlt]
  refine ⟨?_, hmerge, ?_⟩
  · rw [concatClips_replicate_duration]
    exact hloop
  · rw [hmerge]
    simp [composite2, withVolumeScaled, subclipped]

/-- C6 witness: the theorem applied to a 3-second narration and a 2-second
music track (two loop copies, trimmed to 3 s). -/
theorem c6_witness :
    (merge_audio_with_music ⟨3, fun _ => 1⟩ ⟨2, fun _ => 1⟩ (2/10)).duration = 3 ∧
    (3 : ℚ) ≤ (concatClips (List.replicate
        (pyTrunc ((3 : ℚ) / 2) + 1).toNat (⟨2, fun _ => 1⟩ : Clip))).duration := by
  have h := c6_music_loop_trim_mix ⟨3, fun _ => 1⟩ ⟨2, fun _ => 1⟩
    (show (0:ℚ) < 2 by norm_num) (show (2:ℚ) < 3 by norm_num)
  exact ⟨h.2.2, h.1⟩

/-! ### Claim C10 -/

/-- C10: the title block and the introduction block are both rendered from the
first image of the deduplicated list — the title block always uses the punch
zoom effect with the story title overlaid on every title frame, the
introduction block always uses the focus-pull effect — and the first image is
also the one rendered for its own scene (scene 0). -/
theorem c10_title_intro_first_image (u : List String) (story : StoryData) (tc ic : Clip)
    (scs : List Clip) (rng : ℕ → ℕ) (fs : List VFrame)
    (h : buildFramesE u story tc ic scs rng = .ok fs) :
    (∃ tail, fs
      = (create_scene_clip u.headI tc.duration .punch).map (overlayTitle story.title)
        ++ create_scene_clip u.headI ic.duration .focusPull ++ tail) ∧
    (∀ f ∈ (create_scene_clip u.headI tc.duration .punch).map (overlayTitle story.title),
      ∃ i, f = .scene u.headI .punch (some story.title) i) ∧
    (∀ f ∈ create_scene_clip u.headI ic.duration .focusPull,
      ∃ i, f = .scene u.headI .focusPull none i) ∧
    (∀ u0 us c0 cs, u = u0 :: us → scs = c0 :: cs →
      ∃ pre tail, fs = pre
        ++ create_scene_clip u0 c0.duration (get_random_effect_combination (rng 0) 2)
        ++ tail) := by
  rw [buildFramesE] at h
  split at h
  · simp at h
  · refine ⟨?_, ?_, ?_, ?_⟩
    · obtain ⟨t, ht⟩ := addScenes_extends _ _ _ _ _ h
      exact ⟨t, by rw [ht, List.append_assoc]⟩
    · intro f hf
      simp only [create_scene_clip, List.map_map, List.mem_map, List.mem_range,
        Function.comp_def, overlayTitle] at hf
      obtain ⟨i, _, heq⟩ := hf
      exact ⟨i, heq.symm⟩
    · intro f hf
      simp only [create_scene_clip, List.mem_map, List.mem_range] at hf
      obtain ⟨i, _, heq⟩ := hf
      exact ⟨i, heq.symm⟩
    · rintro u0 us c0 cs rfl rfl
      rw [List.zip_cons_cons] at h
      simp only [addScenes] at h
      cases hl : ((create_scene_clip (u0 :: us).headI tc.duration EffectKind.punch).map
          (overlayTitle story.title)
          ++ create_scene_clip (u0 :: us).headI ic.duration EffectKind.focusPull).getLast? with
      | none => rw [hl] at h; simp at h
      | some la =>
        rw [hl] at h
        cases hh : (create_scene_clip u0 c0.duration
            (get_random_effect_combination (rng 0) (0 + 2))).head? with
        | none => rw [hh] at h; simp at h
        | some f0 =>
          rw [hh] at h
          obtain ⟨t, ht⟩ := addScenes_extends _ _ _ _ _ h
          refine ⟨((create_scene_clip (u0 :: us).headI tc.duration EffectKind.punch).map
              (overlayTitle story.title)
              ++ create_scene_clip (u0 :: us).headI ic.duration EffectKind.focusPull)
            ++ (List.range 30).map (fun j => VFrame.blend la f0 j), t, ?_⟩
          rw [ht, List.append_assoc, List.append_assoc, List.append_assoc]

/-- C10 witness: the theorem applied to a concrete two-image assembly; the
first 60 frames are exactly the punch-zoom title block with the overlaid
title followed by the focus-pull introduction block, both from the first
image. -/
theorem c10_witness :
    demoFrames
      = (create_scene_clip demoU.headI clipOne.duration EffectKind.punch).map
          (overlayTitle demoStory.title)
        ++ create_scene_clip demoU.headI clipOne.duration EffectKind.focusPull
        ++ demoFrames.drop 60 := by
  obtain ⟨tail, ht⟩ := (c10_title_intro_first_image demoU demoStory clipOne clipOne demoScs
    (fun _ => 0) demoFrames (by with_unfolding_all rfl)).1
  have h60 : ((create_scene_clip demoU.headI clipOne.duration EffectKind.punch).map
      (overlayTitle demoStory.title)
      ++ create_scene_clip demoU.headI clipOne.duration EffectKind.focusPull).length
      = 60 := by
    with_unfolding_all decide
  rw [ht]
  congr 1
  rw [← h60, List.drop_left]

/-! ### Claim C8: effect crop geometry -/

/-- A crop-window computation: scaled buffer size, crop offset, crop size
(the effect returns `scaled[y : y+ch, x : x+cw]`). -/
structure CropWin where
  sw : ℤ
  sh : ℤ
  x : ℤ
  y : ℤ
  cw : ℤ
  ch : ℤ
  deriving DecidableEq

/-- `smooth_ease_in_out` (lines 37-39). -/
def smooth_ease_in_out (t : ℚ) : ℚ := t * t * (3 - 2 * t)

/-- Crop geometry of `apply_spiral_pan` (lines 41-74): `cosv`, `sinv`, `sin2v`
stand for `cos(angle)`, `sin(angle)`, `sin(2*angle)`; the explicit clamping
makes them irrelevant to the bounds.  `//` on the source's nonnegative
operands is `pyFloorDiv`. -/
def spiralCrop (w h : ℤ) (cosv sinv sin2v : ℚ) : CropWin :=
  let sw := pyTrunc ((w : ℚ) * (14/10))
  let sh := pyTrunc ((h : ℚ) * (14/10))
  let radius := pyFloorDiv (min (sw - w) (sh - h)) 3
  let cx := pyFloorDiv (sw - w) 2
  let cy := pyFloorDiv (sh - h) 2
  let rv : ℚ := (radius : ℚ) * (3/10) * sin2v
  let cr : ℚ := (radius : ℚ) + rv
  let sx := cx + pyTrunc (cr * cosv)
  let sy := cy + pyTrunc (cr * sinv)
  ⟨sw, sh, max 0 (min sx (sw - w)), max 0 (min sy (sh - h)), w, h⟩

/-- Crop geometry of `apply_dramatic_zoom` with `punch_in` (lines 80-88,
111-119): fast ramp to 1.6x over the first 30% of progress, then settle
toward 2.0x; center crop. -/
def punchCrop (w h : ℤ) (p : ℚ) : CropWin :=
  let scale : ℚ :=
    if p < 3/10 then 1 + (p / (3/10)) * (6/10)
    else 16/10 + ((p - 3/10) / (7/10)) * (4/10)
  let nw := pyTrunc ((w : ℚ) * scale)
  let nh := pyTrunc ((h : ℚ) * scale)
  ⟨nw, nh, pyFloorDiv (nw - w) 2, pyFloorDiv (nh - h) 2, w, h⟩

/-- Crop geometry of `apply_dramatic_zoom` with `dolly_zoom` (lines 90-104):
linear zoom to 1.8x, horizontal offset ramping by `int(progress * 30)`. -/
def dollyCrop (w h : ℤ) (p : ℚ) : CropWin :=
  let zoom_scale : ℚ := 1 + p * (8/10)
  let off := pyTrunc (p * 30)
  let nw := pyTrunc ((w : ℚ) * zoom_scale)
  let nh := pyTrunc ((h : ℚ) * zoom_scale)
  ⟨nw, nh, pyFloorDiv (nw - w) 2 + off, pyFloorDiv (nh - h) 2, w, h⟩

/-- Crop geometry of `apply_focus_pull` (lines 121-147) with the default focus
point `(0.5, 0.5)`; the blur phase does not change the crop. -/
def focusCrop (w h : ℤ) (p : ℚ) : CropWin :=
  let zoom_scale : ℚ :=
    if p < 1/2 then 1 + p * (4/10)
    else 12/10 + (p - 1/2) * (4/10)
  let nw := pyTrunc ((w : ℚ) * zoom_scale)
  let nh := pyTrunc ((h : ℚ) * zoom_scale)
  ⟨nw, nh, pyTrunc ((5/10) * ((nw : ℚ) - (w : ℚ))),
    pyTrunc ((5/10) * ((nh : ℚ) - (h : ℚ))), w, h⟩

/-- Crop geometry of `apply_stretch_effect` (lines 149-171): width grows to
`stretch_factor`, height shrinks to `2 - stretch_factor`, then the crop is
`min` of each scaled dimension and the original. -/
def stretchCrop (w h : ℤ) (p : ℚ) : CropWin :=
  let stretch_factor : ℚ := 1 + p * (5/10)
  let nw := pyTrunc ((w : ℚ) * stretch_factor)
  let nh := pyTrunc ((h : ℚ) * (2 - stretch_factor))
  let cw := min nw w
  let ch := min nh h
  ⟨nw, nh, pyFloorDiv (nw - cw) 2, pyFloorDiv (nh - ch) 2, cw, ch⟩

/-- Crop geometry of `apply_cool_pan` (lines 173-204): 1.3x pre-scale,
rotational offset with zoom, explicit clamping. -/
def coolCrop (w h : ℤ) (cosv sinv : ℚ) (p : ℚ) : CropWin :=
  let sw := pyTrunc ((w : ℚ) * (13/10))
  let sh := pyTrunc ((h : ℚ) * (13/10))
  let radius := pyFloorDiv (min (sw - w) (sh - h)) 4
  let zoom_scale : ℚ := 1 + smooth_ease_in_out p * (3/10)
  let cx := pyFloorDiv (sw - w) 2
  let cy := pyFloorDiv (sh - h) 2
  let sx := cx + pyTrunc ((radius : ℚ) * cosv * zoom_scale)
  let sy := cy + pyTrunc ((radius : ℚ) * sinv * zoom_scale)
  ⟨sw, sh, max 0 (min sx (sw - w)), max 0 (min sy (sh - h)), w, h⟩

/-- The crop geometry used for each catalogue effect at the pipeline
resolution 1280x720 (`create_scene_clip` resizes every source image to the
configured resolution before applying the effect, line 403). -/
def cropFor (k : EffectKind) (p cosv sinv sin2v : ℚ) : CropWin :=
  match k with
  | .punch => punchCrop 1280 720 p
  | .dolly => dollyCrop 1280 720 p
  | .spiralCW => spiralCrop 1280 720 cosv sinv sin2v
  | .spiralCCW => spiralCrop 1280 720 cosv sinv sin2v
  | .stretch => stretchCrop 1280 720 p
  | .focusPull => focusCrop 1280 720 p
  | .coolPan => coolCrop 1280 720 cosv sinv p

/-- The crop window reads only pixels inside the scaled buffer. -/
def inBounds (c : CropWin) : Prop :=
  0 ≤ c.x ∧ c.x + c.cw ≤ c.sw ∧ 0 ≤ c.y ∧ c.y + c.ch ≤ c.sh

theorem le_trunc_scale {w : ℤ} {s : ℚ} (hw : 0 ≤ w) (hs : 1 ≤ s) :
    w ≤ pyTrunc ((w : ℚ) * s) := by
  have h0 : (0:ℚ) ≤ (w : ℚ) * s := by
    have := le_mul_of_one_le_right (show (0:ℚ) ≤ (w : ℚ) by exact_mod_cast hw) hs
    have hw' : (0:ℚ) ≤ (w : ℚ) := by exact_mod_cast hw
    linarith
  rw [pyTrunc_of_nonneg h0]
  apply Int.le_floor.mpr
  exact le_mul_of_one_le_right (by exact_mod_cast hw) hs

theorem center_crop_bounds {w nw : ℤ} (h : w ≤ nw) :
    0 ≤ pyFloorDiv (nw - w) 2 ∧ pyFloorDiv (nw - w) 2 + w ≤ nw := by
  have hm : (0:ℤ) ≤ nw - w := by omega
  have hm' : (0:ℚ) ≤ ((nw - w : ℤ) : ℚ) := by exact_mod_cast hm
  have h1 : 0 ≤ pyFloorDiv (nw - w) 2 := by
    rw [pyFloorDiv]
    exact Int.floor_nonneg.mpr (by positivity)
  have h2 : pyFloorDiv (nw - w) 2 ≤ nw - w := by
    rw [pyFloorDiv]
    calc ⌊((nw - w : ℤ) : ℚ) / 2⌋ ≤ ⌊((nw - w : ℤ) : ℚ)⌋ :=
          Int.floor_le_floor (half_le_self hm')
      _ = nw - w := Int.floor_intCast _
  exact ⟨h1, by omega⟩

theorem two_mul_pyFloorDiv_le {m : ℤ} (hm : 0 ≤ m) : 2 * pyFloorDiv m 2 ≤ m := by
  rw [pyFloorDiv]
  have h := Int.floor_le ((m : ℚ) / 2)
  have : (2:ℚ) * (⌊(m : ℚ) / 2⌋ : ℚ) ≤ (m : ℚ) := by linarith
  exact_mod_cast this

theorem trunc_half_gap_bounds {b a : ℤ} (h : b ≤ a) :
    0 ≤ pyTrunc ((5/10) * ((a : ℚ) - (b : ℚ))) ∧
    pyTrunc ((5/10) * ((a : ℚ) - (b : ℚ))) + b ≤ a := by
  have hm : (0:ℚ) ≤ (a : ℚ) - (b : ℚ) := by
    have : (b:ℚ) ≤ (a:ℚ) := by exact_mod_cast h
    linarith
  have h0 : (0:ℚ) ≤ (5/10) * ((a : ℚ) - (b : ℚ)) := by nlinarith
  rw [pyTrunc_of_nonneg h0]
  constructor
  · exact Int.floor_nonneg.mpr h0
  · have hle : (5/10 : ℚ) * ((a : ℚ) - (b : ℚ)) ≤ ((a - b : ℤ) : ℚ) := by
      push_cast
      nlinarith
    have := (Int.floor_le_floor hle).trans_eq (Int.floor_intCast _)
    omega

theorem punch_scale_ge_one {p : ℚ} (hp : 0 ≤ p) :
    1 ≤ (if p < 3/10 then 1 + (p / (3/10)) * (6/10)
         else 16/10 + ((p - 3/10) / (7/10)) * (4/10)) := by
  split
  · have : (0:ℚ) ≤ (p / (3/10)) * (6/10) := by positivity
    linarith
  · rename_i hge
    have h3 : (3:ℚ)/10 ≤ p := not_lt.mp hge
    have : (0:ℚ) ≤ ((p - 3/10) / (7/10)) * (4/10) := by
      have : (0:ℚ) ≤ p - 3/10 := by linarith
      positivity
    linarith

theorem focus_scale_ge_one {p : ℚ} (hp : 0 ≤ p) :
    1 ≤ (if p < 1/2 then 1 + p * (4/10) else 12/10 + (p - 1/2) * (4/10)) := by
  split
  · nlinarith
  · rename_i hge
    have h2 : (1:ℚ)/2 ≤ p := not_lt.mp hge
    nlinarith

theorem spiralCrop_bounds (cosv sinv sin2v : ℚ) :
    inBounds (spiralCrop 1280 720 cosv sinv sin2v) ∧
    (spiralCrop 1280 720 cosv sinv sin2v).cw = 1280 ∧
    (spiralCrop 1280 720 cosv sinv sin2v).ch = 720 := by
  have hsw : pyTrunc (((1280 : ℤ) : ℚ) * (14/10)) = 1792 := by with_unfolding_all decide
  have hsh : pyTrunc (((720 : ℤ) : ℚ) * (14/10)) = 1008 := by with_unfolding_all decide
  simp only [spiralCrop, inBounds, hsw, hsh]
  refine ⟨⟨?_, ?_, ?_, ?_⟩, trivial, trivial⟩ <;> omega

theorem coolCrop_bounds (cosv sinv p : ℚ) :
    inBounds (coolCrop 1280 720 cosv sinv p) ∧
    (coolCrop 1280 720 cosv sinv p).cw = 1280 ∧
    (coolCrop 1280 720 cosv sinv p).ch = 720 := by
  have hsw : pyTrunc (((1280 : ℤ) : ℚ) * (13/10)) = 1664 := by with_unfolding_all decide
  have hsh : pyTrunc (((720 : ℤ) : ℚ) * (13/10)) = 936 := by with_unfolding_all decide
  simp only [coolCrop, inBounds, hsw, hsh]
  refine ⟨⟨?_, ?_, ?_, ?_⟩, trivial, trivial⟩ <;> omega

theorem punchCrop_bounds {p : ℚ} (hp : 0 ≤ p) :
    inBounds (punchCrop 1280 720 p) ∧
    (punchCrop 1280 720 p).cw = 1280 ∧ (punchCrop 1280 720 p).ch = 720 := by
  simp only [punchCrop, inBounds]
  have hs1 : 1 ≤ (if p < 3/10 then 1 + (p / (3/10)) * (6/10)
      else 16/10 + ((p - 3/10) / (7/10)) * (4/10)) := punch_scale_ge_one hp
  have hw := le_trunc_scale (show (0:ℤ) ≤ 1280 by norm_num) hs1
  have hh := le_trunc_scale (show (0:ℤ) ≤ 720 by norm_num) hs1
  obtain ⟨hx1, hx2⟩ := center_crop_bounds hw
  obtain ⟨hy1, hy2⟩ := center_crop_bounds hh
  exact ⟨⟨hx1, hx2, hy1, hy2⟩, trivial, trivial⟩

theorem focusCrop_bounds {p : ℚ} (hp : 0 ≤ p) :
    inBounds (focusCrop 1280 720 p) ∧
    (focusCrop 1280 720 p).cw = 1280 ∧ (focusCrop 1280 720 p).ch = 720 := by
  simp only [focusCrop, inBounds]
  have hs1 : 1 ≤ (if p < 1/2 then 1 + p * (4/10) else 12/10 + (p - 1/2) * (4/10)) :=
    focus_scale_ge_one hp
  have hw := le_trunc_scale (show (0:ℤ) ≤ 1280 by norm_num) hs1
  have hh := le_trunc_scale (show (0:ℤ) ≤ 720 by norm_num) hs1
  obtain ⟨hx1, hx2⟩ := trunc_half_gap_bounds hw
  obtain ⟨hy1, hy2⟩ := trunc_half_gap_bounds hh
  exact ⟨⟨hx1, hx2, hy1, hy2⟩, trivial, trivial⟩

theorem dolly_off_le {p : ℚ} (hp : 0 ≤ p) :
    pyTrunc (p * 30) ≤ pyFloorDiv ⌊(1024 : ℚ) * p⌋ 2 := by
  rw [pyTrunc_of_nonneg (by positivity)]
  have hk0 : (0:ℤ) ≤ ⌊p * 30⌋ := Int.floor_nonneg.mpr (by positivity)
  have hkle : (⌊p * 30⌋ : ℚ) ≤ p * 30 := Int.floor_le _
  have h34 : 34 * ⌊p * 30⌋ ≤ ⌊(1024 : ℚ) * p⌋ := by
    apply Int.le_floor.mpr
    push_cast
    linarith
  have h2k : 2 * ⌊p * 30⌋ ≤ ⌊(1024 : ℚ) * p⌋ := by omega
  rw [pyFloorDiv]
  apply Int.le_floor.mpr
  have : ((2 * ⌊p * 30⌋ : ℤ) : ℚ) ≤ ((⌊(1024 : ℚ) * p⌋ : ℤ) : ℚ) := by exact_mod_cast h2k
  push_cast at this ⊢
  linarith

theorem dollyCrop_bounds {p : ℚ} (hp : 0 ≤ p) :
    inBounds (dollyCrop 1280 720 p) ∧
    (dollyCrop 1280 720 p).cw = 1280 ∧ (dollyCrop 1280 720 p).ch = 720 := by
  simp only [dollyCrop, inBounds]
  have hnw : pyTrunc (((1280 : ℤ) : ℚ) * (1 + p * (8/10))) = 1280 + ⌊(1024 : ℚ) * p⌋ := by
    rw [pyTrunc_of_nonneg (by positivity)]
    rw [show ((1280 : ℤ) : ℚ) * (1 + p * (8/10)) = 1024 * p + ((1280 : ℤ) : ℚ) by
      push_cast; ring]
    rw [Int.floor_add_int]
    omega
  have hnh : pyTrunc (((720 : ℤ) : ℚ) * (1 + p * (8/10))) = 720 + ⌊(576 : ℚ) * p⌋ := by
    rw [pyTrunc_of_nonneg (by positivity)]
    rw [show ((720 : ℤ) : ℚ) * (1 + p * (8/10)) = 576 * p + ((720 : ℤ) : ℚ) by
      push_cast; ring]
    rw [Int.floor_add_int]
    omega
  rw [hnw, hnh]
  have hm0 : (0:ℤ) ≤ ⌊(1024 : ℚ) * p⌋ := Int.floor_nonneg.mpr (by positivity)
  have hm0' : (0:ℤ) ≤ ⌊(576 : ℚ) * p⌋ := Int.floor_nonneg.mpr (by positivity)
  have hoff0 : (0:ℤ) ≤ pyTrunc (p * 30) := by
    rw [pyTrunc_of_nonneg (by positivity)]
    exact Int.floor_nonneg.mpr (by positivity)
  have hdivx : 0 ≤ pyFloorDiv (1280 + ⌊(1024 : ℚ) * p⌋ - 1280) 2 ∧
      pyFloorDiv (1280 + ⌊(1024 : ℚ) * p⌋ - 1280) 2 + 1280 ≤ 1280 + ⌊(1024 : ℚ) * p⌋ :=
    center_crop_bounds (by omega)
  have hdivy : 0 ≤ pyFloorDiv (720 + ⌊(576 : ℚ) * p⌋ - 720) 2 ∧
      pyFloorDiv (720 + ⌊(576 : ℚ) * p⌋ - 720) 2 + 720 ≤ 720 + ⌊(576 : ℚ) * p⌋ :=
    center_crop_bounds (by omega)
  have hsimp : (1280 + ⌊(1024 : ℚ) * p⌋ - 1280) = ⌊(1024 : ℚ) * p⌋ := by omega
  have hoffle := dolly_off_le hp
  have htwo := two_mul_pyFloorDiv_le hm0
  refine ⟨⟨?_, ?_, hdivy.1, ?_⟩, trivial, trivial⟩
  · have := hdivx.1
    omega
  · rw [hsimp] at hdivx ⊢
    omega
  · omega

theorem stretchCrop_bounds {p : ℚ} (hp : 0 ≤ p) (hp1 : p < 1) :
    inBounds (stretchCrop 1280 720 p) ∧ (stretchCrop 1280 720 p).cw = 1280 := by
  simp only [stretchCrop, inBounds]
  have hs1 : (1:ℚ) ≤ 1 + p * (5/10) := by nlinarith
  have hnw : (1280:ℤ) ≤ pyTrunc (((1280 : ℤ) : ℚ) * (1 + p * (5/10))) :=
    le_trunc_scale (by norm_num) hs1
  have hnh0 : (0:ℚ) ≤ ((720 : ℤ) : ℚ) * (2 - (1 + p * (5/10))) := by nlinarith
  have hnhle : pyTrunc (((720 : ℤ) : ℚ) * (2 - (1 + p * (5/10)))) ≤ 720 := by
    rw [pyTrunc_of_nonneg hnh0]
    have hle : ((720 : ℤ) : ℚ) * (2 - (1 + p * (5/10))) ≤ ((720 : ℤ) : ℚ) := by
      push_cast
      nlinarith
    have := (Int.floor_le_floor hle).trans_eq (Int.floor_intCast _)
    omega
  have hcw : min (pyTrunc (((1280 : ℤ) : ℚ) * (1 + p * (5/10)))) 1280 = 1280 :=
    min_eq_right hnw
  have hch : min (pyTrunc (((720 : ℤ) : ℚ) * (2 - (1 + p * (5/10))))) 720
      = pyTrunc (((720 : ℤ) : ℚ) * (2 - (1 + p * (5/10)))) := min_eq_left hnhle
  rw [hcw, hch]
  obtain ⟨hx1, hx2⟩ := center_crop_bounds hnw
  refine ⟨⟨hx1, hx2, ?_, ?_⟩, rfl⟩
  · have h0 : pyFloorDiv (pyTrunc (((720 : ℤ) : ℚ) * (2 - (1 + p * (5/10))))
        - pyTrunc (((720 : ℤ) : ℚ) * (2 - (1 + p * (5/10))))) 2 = 0 := by
      rw [sub_self, pyFloorDiv]
      norm_num
    rw [h0]
  · have h0 : pyFloorDiv (pyTrunc (((720 : ℤ) : ℚ) * (2 - (1 + p * (5/10))))
        - pyTrunc (((720 : ℤ) : ℚ) * (2 - (1 + p * (5/10))))) 2 = 0 := by
      rw [sub_self, pyFloorDiv]
      norm_num
    rw [h0]
    omega

/-- C8 (amended): for every catalogue effect, every progress in `[0, 1)` and
any values of the trigonometric terms, the computed crop window stays within
the scaled pixel buffer — offsets are clamped or centred into valid bounds —
and every effect except the stretch effect returns a full 1280x720 frame.
The stretch effect deliberately returns a reduced-height crop, which
`create_scene_clip` resizes back to the target resolution afterwards
(line 434). -/
theorem c8_crop_windows_clamped (k : EffectKind) (p cosv sinv sin2v : ℚ)
    (hp : 0 ≤ p) (hp1 : p < 1) :
    inBounds (cropFor k p cosv sinv sin2v) ∧
    (k ≠ EffectKind.stretch →
      (cropFor k p cosv sinv sin2v).cw = 1280 ∧
      (cropFor k p cosv sinv sin2v).ch = 720) := by
  cases k with
  | punch => exact ⟨(punchCrop_bounds hp).1, fun _ => (punchCrop_bounds hp).2⟩
  | dolly => exact ⟨(dollyCrop_bounds hp).1, fun _ => (dollyCrop_bounds hp).2⟩
  | spiralCW =>
    exact ⟨(spiralCrop_bounds cosv sinv sin2v).1, fun _ => (spiralCrop_bounds cosv sinv sin2v).2⟩
  | spiralCCW =>
    exact ⟨(spiralCrop_bounds cosv sinv sin2v).1, fun _ => (spiralCrop_bounds cosv sinv sin2v).2⟩
  | stretch =>
    exact ⟨(stretchCrop_bounds hp hp1).1, fun hne => absurd rfl hne⟩
  | focusPull => exact ⟨(focusCrop_bounds hp).1, fun _ => (focusCrop_bounds hp).2⟩
  | coolPan => exact ⟨(coolCrop_bounds cosv sinv p).1, fun _ => (coolCrop_bounds cosv sinv p).2⟩

/-- C8 counterexample: the stretch effect at progress 0.5 crops to height
`int(720 * 0.75) = 540`, not the full 720-pixel target height, so the claim's
"full target frame dimensions" part fails on the stretch effect. -/
theorem c8_counterexample :
    (cropFor EffectKind.stretch (1/2) 0 0 0).ch = 540 ∧
    ¬((cropFor EffectKind.stretch (1/2) 0 0 0).cw = 1280 ∧
      (cropFor EffectKind.stretch (1/2) 0 0 0).ch = 720) := by
  constructor
  · with_unfolding_all decide
  · with_unfolding_all decide

/-- C8 witness: the amended theorem applied to the punch zoom at progress
0.5. -/
theorem c8_witness :
    inBounds (cropFor EffectKind.punch (1/2) 0 0 0) ∧
    (EffectKind.punch ≠ EffectKind.stretch →
      (cropFor EffectKind.punch (1/2) 0 0 0).cw = 1280 ∧
      (cropFor EffectKind.punch (1/2) 0 0 0).ch = 720) :=
  c8_crop_windows_clamped EffectKind.punch (1/2) 0 0 0 (by norm_num) (by norm_num)

example : sanitizeResponse "not json at all" = "" := by decide

example : sanitizeResponse "```json\n  \x7b\"a\": 1\x7d \n```" = "\x7b\"a\": 1\x7d" := by decide

example : dedup ["a", "b", "a", "c"] = ["a", "b", "c"] := by decide

example : frameCount (41/20) = 61 := by with_unfolding_all decide

end CoCo
